import Mathlib

/-!
Shallow embedding of DPanel's infrastructure-graph engine
(`src-tauri/src/infrastructure_graph.rs`, data model from
`src-tauri/src/types.rs`).

Strings are modelled as `List Char` (`Str`), so that every string
operation used by the source (Rust `split`, `trim`, `lines`,
`starts_with`, `contains`, `trim_end_matches`, `find`) is a structurally
recursive, kernel-computable Lean function with the same semantics.

The remote command-execution channel is modelled as a record of raw
command results (`Env`): one field per distinct command the engine
issues, parameterised command families (per-vhost `cat`, per-container
`docker port`, per-network `docker network inspect`) as functions of the
interpolated argument.  `get_infrastructure_graph` is then a pure
function `Env → Except Str InfrastructureGraph`, with the single
`HashMap` iteration (over `vhost_to_backend`) exposed as an explicit
entry-list parameter in `get_infrastructure_graphWith`.
-/

abbrev Str := List Char

def str (s : String) : Str := s.toList

namespace DPanel

/-! ### Rust string primitives over `Str` -/

/-- Rust `str::trim_start`. -/
def trimStart (l : Str) : Str := l.dropWhile Char.isWhitespace

/-- Rust `str::trim_end`. -/
def trimEnd (l : Str) : Str := (l.reverse.dropWhile Char.isWhitespace).reverse

/-- Rust `str::trim`. -/
def rtrim (l : Str) : Str := trimEnd (trimStart l)

/-- Rust `str::trim_end_matches(c)`: strip every trailing occurrence of `c`. -/
def trimEndMatches (c : Char) (l : Str) : Str :=
  (l.reverse.dropWhile (· = c)).reverse

/-- Rust `str::starts_with(pre)`. -/
def startsW (pre l : Str) : Bool := decide (pre <+: l)

/-- Rust `str::contains(pat)` (substring containment). -/
def rcontains (l pat : Str) : Bool := decide (pat <:+: l)

/-- Worker for `splitCh`: `acc` holds the current fragment reversed. -/
def splitChAux (sep : Char) : Str → Str → List Str
  | [], acc => [acc.reverse]
  | c :: rest, acc =>
    if c = sep then acc.reverse :: splitChAux sep rest []
    else splitChAux sep rest (c :: acc)

/-- Rust `str::split(c)` for a `char` separator. -/
def splitCh (sep : Char) (l : Str) : List Str := splitChAux sep l []

/-- Worker for `splitSub`; fuel bounds the recursion (a recursive call
either consumes the head character or at least the non-empty separator,
so `l.length` fuel always suffices). -/
def splitSubAux (sep : Str) : Nat → Str → Str → List Str
  | _, [], acc => [acc.reverse]
  | 0, s, acc => [acc.reverse ++ s]
  | fuel + 1, c :: rest, acc =>
    if startsW sep (c :: rest) then
      acc.reverse :: splitSubAux sep fuel ((c :: rest).drop sep.length) []
    else
      splitSubAux sep fuel rest (c :: acc)

/-- Rust `str::split(sep)` for a (non-empty) string separator:
leftmost-first, non-overlapping. -/
def splitSub (sep l : Str) : List Str := splitSubAux sep l.length l []

/-- Strip one trailing `'\r'` (used by `rlines` on `'\n'`-terminated lines). -/
def stripOneCR (l : Str) : Str :=
  match l.getLast? with
  | some c => if c = '\r' then l.dropLast else l
  | none => l

/-- Rust `str::lines()`: split on `'\n'`, strip one `'\r'` from the end of
each terminated line, drop the empty tail produced by a trailing `'\n'`.
A final line with no terminator keeps any trailing `'\r'`. -/
def rlines (s : Str) : List Str :=
  let parts := splitCh '\n' s
  let body := parts.dropLast.map stripOneCR
  match parts.getLast? with
  | some [] => body
  | some last => body ++ [last]
  | none => body

/-- Rust `line.find(' ')` followed by `line[start..]`: the suffix of `l`
from its first space character (inclusive), or `none` when `l` has no
space. -/
def fromFirstSpace (l : Str) : Option Str :=
  match l.dropWhile (· ≠ ' ') with
  | [] => none
  | rest => some rest

/-- Rust `str::split_whitespace().next()`. -/
def firstWsToken (l : Str) : Option Str :=
  match (l.dropWhile Char.isWhitespace).takeWhile (fun c => !c.isWhitespace) with
  | [] => none
  | t => some t

/-! ### Data model (`types.rs`) -/

/-- `types.rs` `CommandError` (error type of the execution channel). -/
structure CommandError where
  message : Str
  code : Int
deriving Repr, DecidableEq

/-- `types.rs` `PortMapping`. -/
structure PortMapping where
  host_ip : Str
  host_port : Str
  container_port : Str
  protocol : Str
deriving Repr, DecidableEq

/-- `types.rs` `NginxVhost`. -/
structure NginxVhost where
  name : Str
  enabled : Bool
  server_name : Str
  listen_port : Str
  ssl_enabled : Bool
  root_path : Str
deriving Repr, DecidableEq

/-- `types.rs` `DockerContainer`.  The `cpu_percent : f64` field is a
placeholder always set to `0.0` on the graph path and is not modelled
(no other field is floating-point). -/
structure DockerContainer where
  id : Str
  name : Str
  image : Str
  status : Str
  state : Str
  memory_usage : Nat
  memory_limit : Nat
  ports : List PortMapping
deriving Repr, DecidableEq

/-- `types.rs` `DockerNetwork`. -/
structure DockerNetwork where
  id : Str
  name : Str
  driver : Str
  scope : Str
  subnet : Option Str
  gateway : Option Str
  containers : List Str
deriving Repr, DecidableEq

/-- A `serde_json::Value` as produced by the `json!` literals of the
engine (only objects of scalars are ever built). -/
inductive JVal where
  | s : Str → JVal
  | n : Nat → JVal
  | b : Bool → JVal
  | null : JVal
  | obj : List (Str × JVal) → JVal
deriving Repr

/-- `types.rs` `InfraGraphNodeType`. -/
inductive InfraGraphNodeType where
  | internet
  | nginx
  | vhost
  | hostPort
  | container
  | dockerNetwork
  | hostNetwork
deriving Repr, DecidableEq

/-- `types.rs` `NodeStatus`. -/
inductive NodeStatus where
  | running
  | stopped
  | healthy
  | unhealthy
  | unknown
deriving Repr, DecidableEq

/-- `types.rs` `InfraGraphNode`. -/
structure InfraGraphNode where
  id : Str
  label : Str
  node_type : InfraGraphNodeType
  status : NodeStatus
  metadata : JVal
deriving Repr

/-- `types.rs` `InfraGraphEdge`. -/
structure InfraGraphEdge where
  source : Str
  target : Str
  edge_type : Str
  label : Option Str
  metadata : Option JVal
deriving Repr

/-- `types.rs` `InfraSummary`. -/
structure InfraSummary where
  total_containers : Nat
  running_containers : Nat
  total_vhosts : Nat
  enabled_vhosts : Nat
  nginx_status : Str
  total_volumes : Nat
  total_networks : Nat
deriving Repr, DecidableEq

/-- `types.rs` `InfrastructureGraph`. -/
structure InfrastructureGraph where
  nodes : List InfraGraphNode
  edges : List InfraGraphEdge
  summary : InfraSummary
deriving Repr

/-! ### The command-execution channel

One field per command (family) issued by the engine; a function field is
keyed by the string interpolated into the command. `connected = false`
models `ssh_client.as_ref()` being `None`. -/

structure Env where
  connected : Bool
  /-- `systemctl is-active nginx 2>/dev/null || echo 'inactive'` -/
  nginxActive : Except CommandError Str
  /-- `nginx -v 2>&1 | cut -d'/' -f2` -/
  nginxVersion : Except CommandError Str
  /-- `ip route | grep default | awk '{print $5}' | head -1` -/
  defaultRoute : Except CommandError Str
  /-- `ls -1 /etc/nginx/sites-available/ 2>/dev/null | grep -v '^default$'` -/
  sitesAvailable : Except CommandError Str
  /-- `ls -1 /etc/nginx/sites-enabled/ 2>/dev/null` -/
  sitesEnabled : Except CommandError Str
  /-- `cat /etc/nginx/sites-available/{name}`, keyed by vhost name -/
  vhostConfig : Str → Except CommandError Str
  /-- `docker ps --format '{{.ID}}|{{.Names}}|{{.Image}}|{{.State}}' --no-trunc` -/
  dockerPs : Except CommandError Str
  /-- `docker network ls --format '{{.ID}}|{{.Name}}|{{.Driver}}|{{.Scope}}'` -/
  networkLs : Except CommandError Str
  /-- `docker network inspect {id} --format '...Containers...Name...'`, keyed by network id -/
  networkContainers : Str → Except CommandError Str
  /-- `docker network inspect {id} --format '...Subnet...'`, keyed by network id -/
  networkSubnet : Str → Except CommandError Str
  /-- `docker port {name}`, keyed by container name -/
  dockerPort : Str → Except CommandError Str

/-- Rust `unwrap_or_default()` on a command result (default `""`). -/
def okOrEmpty (e : Except CommandError Str) : Str :=
  match e with
  | .ok s => s
  | .error _ => []

/-- Rust `unwrap_or_else(|_| d)` on a command result. -/
def okOr (e : Except CommandError Str) (d : Str) : Str :=
  match e with
  | .ok s => s
  | .error _ => d

/-! ### Fact extractors (`infrastructure_graph.rs`) -/

/-- Line scan of `extract_server_name` (lines 423-434): first trimmed
line starting with `server_name` and containing a space yields the first
whitespace token of the space-suffix, trimmed and stripped of trailing
`';'` (empty token defaulting to `""`). -/
def extract_server_name_lines : List Str → Option Str
  | [] => none
  | line :: rest =>
    let l := rtrim line
    if startsW (str "server_name") l then
      match fromFirstSpace l with
      | some seg => some ((firstWsToken (trimEndMatches ';' (rtrim seg))).getD [])
      | none => extract_server_name_lines rest
    else extract_server_name_lines rest

/-- `extract_server_name` (lines 423-434). -/
def extract_server_name (content : Str) : Option Str :=
  extract_server_name_lines (rlines content)

/-- Line scan of `extract_listen_port` (lines 436-447); an empty value
after the directive keyword defaults to `"80"` inside the `some`. -/
def extract_listen_port_lines : List Str → Option Str
  | [] => none
  | line :: rest =>
    let l := rtrim line
    if startsW (str "listen") l then
      match fromFirstSpace l with
      | some seg => some ((firstWsToken (trimEndMatches ';' (rtrim seg))).getD (str "80"))
      | none => extract_listen_port_lines rest
    else extract_listen_port_lines rest

/-- `extract_listen_port` (lines 436-447). -/
def extract_listen_port (content : Str) : Option Str :=
  extract_listen_port_lines (rlines content)

/-- Line scan of `extract_root_path` (lines 449-460). -/
def extract_root_path_lines : List Str → Option Str
  | [] => none
  | line :: rest =>
    let l := rtrim line
    if startsW (str "root") l then
      match fromFirstSpace l with
      | some seg => some (trimEndMatches ';' (rtrim seg))
      | none => extract_root_path_lines rest
    else extract_root_path_lines rest

/-- `extract_root_path` (lines 449-460). -/
def extract_root_path (content : Str) : Option Str :=
  extract_root_path_lines (rlines content)

/-- Line scan of `extract_proxy_target` (lines 410-420): first trimmed
line starting with `proxy_pass` and containing a space yields the
space-suffix trimmed and stripped of trailing `';'`; otherwise the
sentinel `"static"`. -/
def extract_proxy_target_lines : List Str → Str
  | [] => str "static"
  | line :: rest =>
    let l := rtrim line
    if startsW (str "proxy_pass") l then
      match fromFirstSpace l with
      | some seg => trimEndMatches ';' (rtrim seg)
      | none => extract_proxy_target_lines rest
    else extract_proxy_target_lines rest

/-- `extract_proxy_target` (lines 405-421): re-reads the vhost config
(`cat`, fallible, `map_err(|e| e.message)`) and scans it. -/
def extract_proxy_target (env : Env) (vhost_name : Str) : Except Str Str :=
  match env.vhostConfig vhost_name with
  | .error e => .error e.message
  | .ok content => .ok (extract_proxy_target_lines (rlines content))

/-- Per-line parse of `get_container_ports` (lines 262-284): split on
`"->"` requiring exactly two parts; left part split on `'/'` into
container port and protocol (protocol defaulting to `"tcp"`); host port
is the last `':'`-separated fragment of the right part; empty host port
skips the line. -/
def parsePortLine (line : Str) : Option PortMapping :=
  let parts := splitSub (str "->") line
  match parts with
  | [lhs, rhs] =>
    let container_port_full := rtrim lhs
    let host_binding := rtrim rhs
    let container_port := ((splitCh '/' container_port_full).head?).getD []
    let protocol := ((splitCh '/' container_port_full).get? 1).getD (str "tcp")
    let host_port := ((splitCh ':' host_binding).getLast?).getD []
    if host_port ≠ [] then
      some { host_ip := str "0.0.0.0", host_port := host_port,
             container_port := container_port, protocol := protocol }
    else none
  | _ => none

/-- `get_container_ports` (lines 255-287): `docker port <name>` output
(defaulting to `""` on failure) parsed line by line. -/
def get_container_ports (env : Env) (container_name : Str) : List PortMapping :=
  (rlines (okOrEmpty (env.dockerPort container_name))).filterMap parsePortLine

/-- The per-name vhost record built by the loop body of
`get_vhosts_for_graph` (lines 301-323). -/
def mkVhost (env : Env) (enabled : List Str) (name : Str) : NginxVhost :=
  let content := okOrEmpty (env.vhostConfig name)
  { name := name
    enabled := enabled.contains name
    server_name := (extract_server_name content).getD name
    listen_port := (extract_listen_port content).getD (str "80")
    ssl_enabled := rcontains content (str "ssl_certificate")
    root_path := (extract_root_path content).getD [] }

/-- `get_vhosts_for_graph` (lines 289-326): both listings default to
`""` on failure; empty names are skipped; `enabled` is membership of the
name in the enabled listing's lines. -/
def get_vhosts_for_graph (env : Env) : List NginxVhost :=
  let available := okOrEmpty env.sitesAvailable
  let enabled := rlines (okOrEmpty env.sitesEnabled)
  ((rlines available).filter (· ≠ [])).map (mkVhost env enabled)

/-- Per-line parse of `get_containers_for_graph` (lines 334-349):
pipe-split, at least four fields, otherwise the line is skipped. -/
def parseContainerLine (line : Str) : Option DockerContainer :=
  let parts := splitCh '|' line
  if parts.length ≥ 4 then
    some { id := (parts.get? 0).getD []
           name := (parts.get? 1).getD []
           image := (parts.get? 2).getD []
           status := str "running"
           state := (parts.get? 3).getD []
           memory_usage := 0
           memory_limit := 0
           ports := [] }
  else none

/-- `get_containers_for_graph` (lines 328-352): the `docker ps` listing
is fatal on failure (`map_err(|e| e.message)`). -/
def get_containers_for_graph (env : Env) : Except Str (List DockerContainer) :=
  match env.dockerPs with
  | .error e => .error e.message
  | .ok out => .ok ((rlines out).filterMap parseContainerLine)

/-- Per-network construction of `get_docker_networks_for_graph` (lines
360-399): pipe-split with at least four fields, skipping networks named
`null` or `host`; member list and subnet come from two best-effort
inspect calls. -/
def parseNetworkLine (env : Env) (line : Str) : Option DockerNetwork :=
  let parts := splitCh '|' line
  if parts.length ≥ 4 then
    let network_id := (parts.get? 0).getD []
    let network_name := (parts.get? 1).getD []
    if network_name = str "null" ∨ network_name = str "host" then
      none
    else
      let containers_output := okOrEmpty (env.networkContainers network_id)
      let containers :=
        (splitCh ',' (trimEndMatches ',' containers_output)).filter (· ≠ [])
      let subnet_output := okOrEmpty (env.networkSubnet network_id)
      let subnet := if rtrim subnet_output = [] then none else some (rtrim subnet_output)
      some { id := network_id
             name := network_name
             driver := (parts.get? 2).getD []
             scope := (parts.get? 3).getD []
             subnet := subnet
             gateway := none
             containers := containers }
  else none

/-- `get_docker_networks_for_graph` (lines 354-403): the `docker network
ls` listing is fatal on failure (`map_err(|e| e.message)`). -/
def get_docker_networks_for_graph (env : Env) : Except Str (List DockerNetwork) :=
  match env.networkLs with
  | .error e => .error e.message
  | .ok out => .ok ((rlines out).filterMap (parseNetworkLine env))

/-! ### Correlation engine and graph assembler
(`get_infrastructure_graph`, lines 15-253) -/

/-- `&container.id[..12.min(container.id.len())]` (lines 144, 185). -/
def shortId (c : DockerContainer) : Str := c.id.take 12

/-- `HashMap::insert` on an entry list: replace the value at an existing
key, otherwise append the new entry. -/
def upsert (m : List (Str × Str)) (k v : Str) : List (Str × Str) :=
  if m.any (fun p => decide (p.1 = k)) then
    m.map (fun p => if p.1 = k then (k, v) else p)
  else m ++ [(k, v)]

/-- The `vhost_to_backend` map (lines 93, 119-123): one `insert` per
vhost whose `extract_proxy_target` call succeeds, keyed by
`vhost:<name>`. -/
def vhostBackends (env : Env) (vhosts : List NginxVhost) : List (Str × Str) :=
  vhosts.foldl
    (fun m v =>
      match extract_proxy_target env v.name with
      | .ok backend => upsert m (str "vhost:" ++ v.name) backend
      | .error _ => m)
    []

/-- `systemctl is-active` probe (lines 35-39): default `"inactive"`,
running iff the trimmed output is exactly `"active"`. -/
def nginxRunning (env : Env) : Bool :=
  decide (rtrim (okOr env.nginxActive (str "inactive")) = str "active")

/-- `nginx -v` probe (lines 40-42): default `""`. -/
def nginxVersionStr (env : Env) : Str := okOrEmpty env.nginxVersion

/-- Default-route probe (lines 65-69): default `"eth0"`, trimmed. -/
def hostInterface (env : Env) : Str := rtrim (okOr env.defaultRoute (str "eth0"))

/-- Layer-1 `Internet` node (lines 23-31). -/
def internetNode : InfraGraphNode :=
  { id := str "internet", label := str "Internet",
    node_type := .internet, status := .healthy,
    metadata := .obj [(str "description", .s (str "External network"))] }

/-- Nginx node (lines 44-53). -/
def nginxNode (env : Env) : InfraGraphNode :=
  { id := str "nginx",
    label := str "Nginx " ++ rtrim (nginxVersionStr env),
    node_type := .nginx,
    status := if nginxRunning env then .running else .stopped,
    metadata := .obj [(str "version", .s (rtrim (nginxVersionStr env))),
                      (str "running", .b (nginxRunning env))] }

/-- Internet → Nginx edge (lines 56-62). -/
def routesToEdge : InfraGraphEdge :=
  { source := str "internet", target := str "nginx",
    edge_type := str "routes_to", label := some (str "80/443"), metadata := none }

/-- Host-network node (lines 71-80). -/
def hostNetworkNode (env : Env) : InfraGraphNode :=
  { id := str "host_network",
    label := str "Host (" ++ hostInterface env ++ str ")",
    node_type := .hostNetwork, status := .running,
    metadata := .obj [(str "interface", .s (hostInterface env)),
                      (str "type", .s (str "host"))] }

/-- Host network → Internet edge (lines 83-89). -/
def outboundEdge : InfraGraphEdge :=
  { source := str "host_network", target := str "internet",
    edge_type := str "outbound", label := some (str "NAT"), metadata := none }

/-- Vhost node (lines 96-108). -/
def vhostNode (v : NginxVhost) : InfraGraphNode :=
  { id := str "vhost:" ++ v.name, label := v.server_name,
    node_type := .vhost,
    status := if v.enabled then .healthy else .stopped,
    metadata := .obj [(str "name", .s v.name),
                      (str "server_name", .s v.server_name),
                      (str "enabled", .b v.enabled),
                      (str "ssl", .b v.ssl_enabled)] }

/-- Nginx → vhost edge (lines 111-117). -/
def servesEdge (v : NginxVhost) : InfraGraphEdge :=
  { source := str "nginx", target := str "vhost:" ++ v.name,
    edge_type := str "serves", label := some v.listen_port, metadata := none }

/-- Container node (lines 129-140). -/
def containerNode (c : DockerContainer) : InfraGraphNode :=
  { id := str "container:" ++ c.name, label := c.name,
    node_type := .container,
    status := if c.state = str "running" then .running else .stopped,
    metadata := .obj [(str "id", .s c.id),
                      (str "image", .s c.image),
                      (str "state", .s c.state)] }

/-- Correlation rule 1 (lines 142-153): one `proxies_to` edge per
backend-map entry whose backend string contains the container's name or
12-character short id. -/
def proxyEdges (order : List (Str × Str)) (c : DockerContainer) : List InfraGraphEdge :=
  order.filterMap (fun p =>
    if rcontains p.2 c.name || rcontains p.2 (shortId c) then
      some { source := p.1, target := str "container:" ++ c.name,
             edge_type := str "proxies_to", label := some p.2, metadata := none }
    else none)

/-- Network node (lines 160-172). -/
def networkNode (n : DockerNetwork) : InfraGraphNode :=
  { id := str "network:" ++ n.name,
    label := n.name ++ str " (" ++ n.driver ++ str ")",
    node_type := .dockerNetwork, status := .healthy,
    metadata := .obj [(str "driver", .s n.driver),
                      (str "scope", .s n.scope),
                      (str "subnet", match n.subnet with | some s => .s s | none => .null),
                      (str "containers", .n n.containers.length)] }

/-- Network → host-network NAT edge (lines 175-181). -/
def natEdge (n : DockerNetwork) : InfraGraphEdge :=
  { source := str "network:" ++ n.name, target := str "host_network",
    edge_type := str "nat", label := some (str "masquerade"), metadata := none }

/-- Correlation rule 2 (lines 184-196): one `connected_to` edge per
container whose exact name is a recorded member, or whose 12-character
short id is a prefix of some member string. -/
def connectedEdges (containers : List DockerContainer) (n : DockerNetwork) :
    List InfraGraphEdge :=
  containers.filterMap (fun c =>
    if n.containers.contains c.name || n.containers.any (fun m => startsW (shortId c) m) then
      some { source := str "container:" ++ c.name, target := str "network:" ++ n.name,
             edge_type := str "connected_to", label := none, metadata := none }
    else none)

/-- HostPort node (lines 208-219). -/
def hostPortNode (p : PortMapping) : InfraGraphNode :=
  { id := str "hostport:" ++ p.host_port,
    label := str "Port :" ++ p.host_port,
    node_type := .hostPort, status := .running,
    metadata := .obj [(str "host_port", .s p.host_port),
                      (str "container_port", .s p.container_port),
                      (str "protocol", .s p.protocol)] }

/-- Internet → HostPort edge (lines 222-228). -/
def directAccessEdge (p : PortMapping) : InfraGraphEdge :=
  { source := str "internet", target := str "hostport:" ++ p.host_port,
    edge_type := str "direct_access", label := some (str ":" ++ p.host_port),
    metadata := none }

/-- HostPort → container edge (lines 231-237); the label preserves the
source's mojibake arrow literally. -/
def portMappingEdge (c : DockerContainer) (p : PortMapping) : InfraGraphEdge :=
  { source := str "hostport:" ++ p.host_port, target := str "container:" ++ c.name,
    edge_type := str "port_mapping", label := some (str "â†’ :" ++ p.container_port),
    metadata := none }

/-- The node list accumulated across layers 1-5 plus the direct
port-mapping pass, in push order. -/
def graphNodes (env : Env) (vhosts : List NginxVhost)
    (containers : List DockerContainer) (networks : List DockerNetwork) :
    List InfraGraphNode :=
  [internetNode, nginxNode env, hostNetworkNode env]
    ++ vhosts.map vhostNode
    ++ containers.map containerNode
    ++ networks.map networkNode
    ++ containers.flatMap (fun c => (get_container_ports env c.name).map hostPortNode)

/-- The edge list accumulated across layers 1-5 plus the direct
port-mapping pass, in push order; `order` is the iteration order of the
`vhost_to_backend` map. -/
def graphEdges (env : Env) (order : List (Str × Str)) (vhosts : List NginxVhost)
    (containers : List DockerContainer) (networks : List DockerNetwork) :
    List InfraGraphEdge :=
  [routesToEdge, outboundEdge]
    ++ vhosts.map servesEdge
    ++ containers.flatMap (proxyEdges order)
    ++ networks.flatMap (fun n => natEdge n :: connectedEdges containers n)
    ++ containers.flatMap (fun c =>
        (get_container_ports env c.name).flatMap
          (fun p => [directAccessEdge p, portMappingEdge c p]))

/-- `InfraSummary` computation (lines 242-250). -/
def mkSummary (env : Env) (vhosts : List NginxVhost)
    (containers : List DockerContainer) (networks : List DockerNetwork) :
    InfraSummary :=
  { total_containers := containers.length
    running_containers := (containers.filter (fun c => decide (c.state = str "running"))).length
    total_vhosts := vhosts.length
    enabled_vhosts := (vhosts.filter (·.enabled)).length
    nginx_status := if nginxRunning env then str "running" else str "stopped"
    total_volumes := 0
    total_networks := networks.length }

/-- `get_infrastructure_graph` with the `vhost_to_backend` iteration
order made explicit: the channel check (`ok_or("Not connected to
server")?`), then the fallible container and network listings in source
order, then the pure assembly. -/
def get_infrastructure_graphWith (env : Env) (order : List (Str × Str)) :
    Except Str InfrastructureGraph :=
  if env.connected then
    let vhosts := get_vhosts_for_graph env
    match get_containers_for_graph env with
    | .error e => .error e
    | .ok containers =>
      match get_docker_networks_for_graph env with
      | .error e => .error e
      | .ok networks =>
        .ok { nodes := graphNodes env vhosts containers networks
              edges := graphEdges env order vhosts containers networks
              summary := mkSummary env vhosts containers networks }
  else .error (str "Not connected to server")

/-- `get_infrastructure_graph` (lines 15-253), with the canonical
(insertion-order) iteration of `vhost_to_backend`. -/
def get_infrastructure_graph (env : Env) : Except Str InfrastructureGraph :=
  get_infrastructure_graphWith env (vhostBackends env (get_vhosts_for_graph env))

/-- Node list of a collection result (`[]` for a fatal failure). -/
def nodesOf (r : Except Str InfrastructureGraph) : List InfraGraphNode :=
  match r with
  | .ok g => g.nodes
  | .error _ => []

/-- Edge list of a collection result (`[]` for a fatal failure). -/
def edgesOf (r : Except Str InfrastructureGraph) : List InfraGraphEdge :=
  match r with
  | .ok g => g.edges
  | .error _ => []

/-- Summary of a collection result (`none` for a fatal failure). -/
def summaryOf (r : Except Str InfrastructureGraph) : Option InfraSummary :=
  match r with
  | .ok g => some g.summary
  | .error _ => none

/-- Whether a collection result is a fatal failure. -/
def isFatal (r : Except Str InfrastructureGraph) : Bool :=
  match r with
  | .ok _ => false
  | .error _ => true

/-- The suffix of `x` after the last occurrence of `c` (all of `x` when
`c` does not occur): the semantic reading of "take the substring after
the last `:`" used by the port parser. -/
def afterLastSep (c : Char) : Str → Str
  | [] => []
  | x :: rest =>
    if c ∈ rest then afterLastSep c rest
    else if x = c then rest else x :: rest

/-! ### Concrete environments (test inputs for the theorems below) -/

/-- A failed command result. -/
def errE : Except CommandError Str := .error { message := str "boom", code := 1 }

/-- The spec's end-to-end scenario: a running nginx, one enabled vhost
proxying to container `app`, one network `appnet` listing `app`, one
port mapping `80/tcp -> 0.0.0.0:8080`. -/
def envHappy : Env :=
  { connected := true
    nginxActive := .ok (str "active\n")
    nginxVersion := .ok (str "1.18.0\n")
    defaultRoute := .ok (str "eth0\n")
    sitesAvailable := .ok (str "site\n")
    sitesEnabled := .ok (str "site\n")
    vhostConfig := fun n =>
      if n = str "site" then
        .ok (str "server_name example.com;\nlisten 8080;\nproxy_pass http://app:3000;\n")
      else errE
    dockerPs := .ok (str "0123456789abcdef0123456789abcdef01234567|app|nginx:latest|running\n")
    networkLs := .ok (str "aaa|appnet|bridge|local\n")
    networkContainers := fun _ => .ok (str "app,")
    networkSubnet := fun _ => .ok (str "172.18.0.0/16\n")
    dockerPort := fun n =>
      if n = str "app" then .ok (str "80/tcp -> 0.0.0.0:8080\n") else .ok [] }

/-- Fallback graph used only to totalise `match`-projections. -/
def emptyGraph : InfrastructureGraph :=
  { nodes := [], edges := []
    summary := { total_containers := 0, running_containers := 0, total_vhosts := 0,
                 enabled_vhosts := 0, nginx_status := [], total_volumes := 0,
                 total_networks := 0 } }

/-- The graph collected from `envHappy`. -/
def gHappy : InfrastructureGraph :=
  match get_infrastructure_graph envHappy with
  | .ok g => g
  | .error _ => emptyGraph

/-- `envHappy` with the channel gone. -/
def envDown : Env := { envHappy with connected := false }

/-- Two container records sharing the name `app`. -/
def envDupName : Env :=
  { envHappy with
    dockerPs := .ok (str "0123456789abcdef0123456789abcdef01234567|app|nginx:latest|running\naaaabbbbccccddddaaaabbbbccccddddaaaabbbb|app|redis:7|running\n") }

/-- One vhost `site` with a static (no `proxy_pass`) config and one
container named `a`, whose one-letter name occurs inside the sentinel
string `"static"`. -/
def envStatic : Env :=
  { envHappy with
    vhostConfig := fun n =>
      if n = str "site" then .ok (str "server_name example.com;\nroot /var/www;\n")
      else errE
    dockerPs := .ok (str "0123456789abcdef0123456789abcdef01234567|a|nginx:latest|running\n")
    networkLs := .ok []
    dockerPort := fun _ => .ok [] }

/-- One vhost `site` with a static config and one container named `zz`,
whose name and short id occur nowhere inside `"static"`. -/
def envStatic2 : Env :=
  { envStatic with
    dockerPs := .ok (str "0123456789abcdef0123456789abcdef01234567|zz|nginx:latest|running\n") }

/-- The graph collected from `envStatic2`. -/
def gStatic2 : InfrastructureGraph :=
  match get_infrastructure_graph envStatic2 with
  | .ok g => g
  | .error _ => emptyGraph

/-- Exactly one vhost (backend `http://app:3000`) and exactly one
container named `app` with an arbitrary full id `cid`. -/
def envC4 (cid : Str) : Env :=
  { envHappy with
    dockerPs := .ok (cid ++ str "|app|nginx:latest|running")
    networkLs := .ok []
    dockerPort := fun _ => .ok [] }

/-- As `envC4`, but the vhost's backend (`http://10.0.0.99:3000`)
contains neither the container name `app` nor (by hypothesis) the
short id of `cid`. -/
def envC4b (cid : Str) : Env :=
  { envC4 cid with
    vhostConfig := fun n =>
      if n = str "site" then
        .ok (str "server_name example.com;\nlisten 8080;\nproxy_pass http://10.0.0.99:3000;\n")
      else errE }

/-- One container whose full id is the empty string (empty first
`docker ps` field), plus a vhost backend and a network with one member. -/
def envC10 : Env :=
  { envHappy with
    dockerPs := .ok (str "|app|nginx:latest|running\n") }

/-- A vhost whose config carries an `ssl_certificate` directive. -/
def envSsl : Env :=
  { envHappy with
    vhostConfig := fun n =>
      if n = str "site" then
        .ok (str "listen 443 ssl;\nssl_certificate /etc/ssl/cert.pem;\n")
      else errE }

/-- The graph collected from `envC10`. -/
def gC10 : InfrastructureGraph :=
  match get_infrastructure_graph envC10 with
  | .ok g => g
  | .error _ => emptyGraph

/-- Discriminates the id namespaces of the five node layers by their
leading characters: `vhost:` 1, `container:` 2, `network:` 3,
`hostport:` 4, `internet` 5, `nginx` 6, `host_network` 7. -/
def idTag : Str → Nat
  | 'v' :: _ => 1
  | 'c' :: _ => 2
  | 'n' :: 'e' :: _ => 3
  | 'h' :: 'o' :: 's' :: 't' :: 'p' :: _ => 4
  | 'i' :: _ => 5
  | 'n' :: _ => 6
  | 'h' :: _ => 7
  | _ => 0

/-! ## Shared lemmas -/

theorem startsW_iff {pre l : Str} : startsW pre l = true ↔ pre <+: l := by
  simp [startsW]

theorem rcontains_iff {l pat : Str} : rcontains l pat = true ↔ pat <:+: l := by
  simp [rcontains]

/-- Inversion of a successful collection pass: the channel was up, both
fatal listings succeeded, and the graph is the pure assembly of the
parsed records. -/
theorem graphWith_ok_inv {env : Env} {order : List (Str × Str)} {g : InfrastructureGraph}
    (h : get_infrastructure_graphWith env order = .ok g) :
    env.connected = true ∧
    ∃ containers networks,
      get_containers_for_graph env = .ok containers ∧
      get_docker_networks_for_graph env = .ok networks ∧
      g = { nodes := graphNodes env (get_vhosts_for_graph env) containers networks
            edges := graphEdges env order (get_vhosts_for_graph env) containers networks
            summary := mkSummary env (get_vhosts_for_graph env) containers networks } := by
  by_cases hc : env.connected = true
  · refine ⟨hc, ?_⟩
    simp only [get_infrastructure_graphWith, hc, if_true] at h
    cases hcon : get_containers_for_graph env with
    | error e => rw [hcon] at h; exact absurd h (by simp)
    | ok cs =>
      rw [hcon] at h
      cases hnet : get_docker_networks_for_graph env with
      | error e => rw [hnet] at h; exact absurd h (by simp)
      | ok ns => rw [hnet] at h; exact ⟨cs, ns, rfl, rfl, (Except.ok.inj h).symm⟩
  · rw [Bool.not_eq_true] at hc
    simp only [get_infrastructure_graphWith, hc, Bool.false_eq_true, if_false] at h
    exact absurd h (by simp)

/-- Edge list of a successful pass, as a function of the parsed
records. -/
theorem edgesOf_graphWith (env : Env) (order : List (Str × Str))
    {cs : List DockerContainer} {ns : List DockerNetwork}
    (hc : env.connected = true)
    (hcs : get_containers_for_graph env = .ok cs)
    (hns : get_docker_networks_for_graph env = .ok ns) :
    edgesOf (get_infrastructure_graphWith env order)
      = graphEdges env order (get_vhosts_for_graph env) cs ns := by
  simp only [get_infrastructure_graphWith, hc, if_true, hcs, hns]
  rfl

/-! ## Claim C9 -/

/-- Claim C9: in every successfully returned graph, the summary field
`total_volumes` equals `0`, for all inputs. -/
theorem c9_total_volumes_always_zero (env : Env) (g : InfrastructureGraph)
    (h : get_infrastructure_graph env = .ok g) : g.summary.total_volumes = 0 := by
  obtain ⟨-, cs, ns, -, -, rfl⟩ := graphWith_ok_inv h
  rfl

/-- Witness for C9 at the end-to-end scenario environment. -/
theorem c9_total_volumes_always_zero_witness : gHappy.summary.total_volumes = 0 :=
  c9_total_volumes_always_zero envHappy gHappy rfl

/-! ## Claim C5 -/

/-- Claim C5: if the execution channel is unavailable, or the container
listing fails, or the network listing fails, `get_infrastructure_graph`
returns a single error value and no graph. -/
theorem c5_fatal_failures_abort (env : Env)
    (h : env.connected = false
      ∨ (∃ e, env.dockerPs = .error e)
      ∨ (∃ e, env.networkLs = .error e)) :
    isFatal (get_infrastructure_graph env) = true := by
  cases hcon : env.connected with
  | false =>
    simp [get_infrastructure_graph, get_infrastructure_graphWith, hcon, isFatal]
  | true =>
    rcases h with hc | ⟨e, he⟩ | ⟨e, he⟩
    · rw [hcon] at hc; cases hc
    · simp [get_infrastructure_graph, get_infrastructure_graphWith, hcon,
        get_containers_for_graph, he, isFatal]
    · cases hps : env.dockerPs with
      | error e2 =>
        simp [get_infrastructure_graph, get_infrastructure_graphWith, hcon,
          get_containers_for_graph, hps, isFatal]
      | ok out =>
        simp [get_infrastructure_graph, get_infrastructure_graphWith, hcon,
          get_containers_for_graph, hps, get_docker_networks_for_graph, he, isFatal]

/-- Witness for C5: the disconnected channel aborts the collection. -/
theorem c5_fatal_failures_abort_witness :
    isFatal (get_infrastructure_graph envDown) = true :=
  c5_fatal_failures_abort envDown (Or.inl rfl)

/-! ## Claim C7 -/

/-- No trimmed line of `ls` begins with `listen`, so the scan yields
`none`. -/
theorem extract_listen_port_lines_eq_none {ls : List Str}
    (h : ∀ line ∈ ls, ¬ (str "listen" <+: rtrim line)) :
    extract_listen_port_lines ls = none := by
  induction ls with
  | nil => rfl
  | cons line rest ih =>
    have h1 : startsW (str "listen") (rtrim line) = false := by
      rw [Bool.eq_false_iff]
      intro hh
      exact h line (by simp) (startsW_iff.mp hh)
    simp only [extract_listen_port_lines, h1, Bool.false_eq_true, if_false]
    exact ih (fun l hl => h l (List.mem_cons_of_mem _ hl))

/-- Claim C7: `listen 8080;` in a config yields listen_port `"8080"`; a
config with no `listen` directive yields the default `"80"`; an
`ssl_certificate` occurrence anywhere yields `ssl_enabled = true`. -/
theorem c7_directive_extraction :
    extract_listen_port (str "server_name example.com;\nlisten 8080;\nroot /var/www;")
      = some (str "8080")
    ∧ (∀ (env : Env) (enabled : List Str) (name : Str),
        (∀ line ∈ rlines (okOrEmpty (env.vhostConfig name)), ¬ (str "listen" <+: rtrim line)) →
        (mkVhost env enabled name).listen_port = str "80")
    ∧ (∀ (env : Env) (enabled : List Str) (name : Str),
        str "ssl_certificate" <:+: okOrEmpty (env.vhostConfig name) →
        (mkVhost env enabled name).ssl_enabled = true) := by
  refine ⟨by decide, ?_, ?_⟩
  · intro env enabled name h
    simp [mkVhost, extract_listen_port, extract_listen_port_lines_eq_none h]
  · intro env enabled name h
    simpa [mkVhost, rcontains] using h

/-- Witness for C7 at concrete configs: `envStatic`'s config has no
`listen` directive, `envSsl`'s has a certificate directive. -/
theorem c7_directive_extraction_witness :
    (mkVhost envStatic [] (str "site")).listen_port = str "80"
    ∧ (mkVhost envSsl [] (str "site")).ssl_enabled = true :=
  ⟨c7_directive_extraction.2.1 envStatic [] (str "site") (by decide),
   c7_directive_extraction.2.2 envSsl [] (str "site") (by decide)⟩

/-! ## Claim C6 -/

/-- A string not containing the separator is not split. -/
theorem splitSubAux_of_not_infix {sep : Str} :
    ∀ (fuel : Nat) (s acc : Str), s.length ≤ fuel → ¬ (sep <:+: s) →
      splitSubAux sep fuel s acc = [acc.reverse ++ s] := by
  intro fuel
  induction fuel with
  | zero =>
    intro s acc hlen _
    cases s with
    | nil => simp [splitSubAux]
    | cons c rest => simp at hlen
  | succ n ih =>
    intro s acc hlen hinf
    cases s with
    | nil => simp [splitSubAux]
    | cons c rest =>
      have hpre : startsW sep (c :: rest) = false := by
        rw [Bool.eq_false_iff]
        intro hh
        exact hinf (startsW_iff.mp hh).isInfix
      simp only [splitSubAux, hpre, Bool.false_eq_true, if_false]
      rw [ih rest (c :: acc) (by simpa using Nat.le_of_succ_le_succ (by simpa using hlen))
        (fun hh => hinf (List.infix_cons hh))]
      simp

/-- `splitSub` on a separator-free string yields the single fragment. -/
theorem splitSub_of_not_infix {sep s : Str} (h : ¬ (sep <:+: s)) :
    splitSub sep s = [s] := by
  simpa using splitSubAux_of_not_infix s.length s [] le_rfl h

/-- Head of a `char`-split: everything before the first separator. -/
theorem splitChAux_head? (c : Char) :
    ∀ (l acc : Str), (splitChAux c l acc).head? = some (acc.reverse ++ l.takeWhile (· ≠ c)) := by
  intro l
  induction l with
  | nil => intro acc; simp [splitChAux]
  | cons x rest ih =>
    intro acc
    by_cases hx : x = c
    · subst hx
      simp [splitChAux, List.takeWhile_cons]
    · simp only [splitChAux, hx, if_false]
      rw [ih (x :: acc)]
      simp [List.takeWhile_cons, hx]

/-- The split worker never returns an empty list. -/
theorem splitChAux_ne_nil (c : Char) : ∀ (l acc : Str), splitChAux c l acc ≠ [] := by
  intro l
  induction l with
  | nil => intro acc; simp [splitChAux]
  | cons x rest ih =>
    intro acc
    by_cases hx : x = c
    · subst hx; simp [splitChAux]
    · simp only [splitChAux, hx, if_false]
      exact ih (x :: acc)

/-- `getLast?` skips the head when the tail is non-empty. -/
theorem getLast?_cons_of_ne_nil {α : Type} {a : α} {t : List α} (h : t ≠ []) :
    (a :: t).getLast? = t.getLast? := by
  cases t with
  | nil => exact absurd rfl h
  | cons b t' => exact List.getLast?_cons_cons

/-- Last fragment of a `char`-split: the suffix after the last
separator (the whole input, `acc` included, when the separator is
absent). -/
theorem splitChAux_getLast? (c : Char) :
    ∀ (l acc : Str),
      (splitChAux c l acc).getLast?
        = some (if c ∈ l then afterLastSep c l else acc.reverse ++ l) := by
  intro l
  induction l with
  | nil => intro acc; simp [splitChAux, afterLastSep]
  | cons x rest ih =>
    intro acc
    by_cases hx : x = c
    · subst hx
      simp only [splitChAux, if_true]
      rw [getLast?_cons_of_ne_nil (splitChAux_ne_nil x rest []), ih ([] : Str)]
      by_cases hm : x ∈ rest <;> simp [afterLastSep, hm]
    · simp only [splitChAux, hx, if_false]
      rw [ih (x :: acc)]
      have hmem : (c ∈ x :: rest) ↔ c ∈ rest := by
        constructor
        · intro hh
          rcases List.mem_cons.mp hh with hh1 | hh2
          · exact absurd hh1.symm hx
          · exact hh2
        · exact List.mem_cons_of_mem _
      by_cases hm : c ∈ rest
      · simp [hm, hmem, afterLastSep, fun hh : x = c => hx hh]
      · simp [hm, hmem, afterLastSep, fun hh : x = c => hx hh]

/-- The separator-free case of `afterLastSep`. -/
theorem afterLastSep_of_not_mem {c : Char} {l : Str} (h : c ∉ l) :
    afterLastSep c l = l := by
  cases l with
  | nil => rfl
  | cons x rest =>
    have hx : x ≠ c := fun hh => h (by simp [hh])
    have hm : c ∉ rest := fun hh => h (List.mem_cons_of_mem _ hh)
    simp [afterLastSep, hm, hx]

/-- `splitCh` last fragment: the suffix after the last separator. -/
theorem splitCh_getLast? (c : Char) (l : Str) :
    (splitCh c l).getLast? = some (afterLastSep c l) := by
  rw [splitCh, splitChAux_getLast?]
  by_cases hm : c ∈ l
  · simp [hm]
  · simp [hm, afterLastSep_of_not_mem hm]

/-- `splitCh` head: everything before the first separator. -/
theorem splitCh_head? (c : Char) (l : Str) :
    (splitCh c l).head? = some (l.takeWhile (· ≠ c)) := by
  simpa using splitChAux_head? c l []

/-- A separator-free string is not split. -/
theorem splitChAux_of_not_mem (c : Char) :
    ∀ (l acc : Str), c ∉ l → splitChAux c l acc = [acc.reverse ++ l] := by
  intro l
  induction l with
  | nil => intro acc _; simp [splitChAux]
  | cons x rest ih =>
    intro acc h
    have hx : ¬ x = c := fun hh => h (by simp [hh])
    simp only [splitChAux, hx, if_false]
    rw [ih (x :: acc) (fun hh => h (List.mem_cons_of_mem _ hh))]
    simp

/-- `splitCh` on a separator-free string. -/
theorem splitCh_of_not_mem {c : Char} {l : Str} (h : c ∉ l) : splitCh c l = [l] := by
  simpa using splitChAux_of_not_mem c l [] h

/-- Every parsed port mapping has a non-empty host port. -/
theorem parsePortLine_host_port_ne_nil {line : Str} {pm : PortMapping}
    (h : parsePortLine line = some pm) : pm.host_port ≠ [] := by
  rcases hs : splitSub (str "->") line with _ | ⟨lhs, _ | ⟨rhs, rest⟩⟩
  · simp [parsePortLine, hs] at h
  · simp [parsePortLine, hs] at h
  · cases rest with
    | nil =>
      simp only [parsePortLine, hs] at h
      split at h
      case isTrue hne => obtain rfl := Option.some.inj h; simpa using hne
      case isFalse => exact absurd h (by simp)
    | cons y ys => simp [parsePortLine, hs] at h

/-- Claim C6: `"80/tcp -> 0.0.0.0:8080"` parses to
`{container_port := "80", protocol := "tcp", host_port := "8080"}`; a
line with no `->` separator is skipped; for a line splitting into a left
and right side, the container port is the left side's first
`/`-fragment, the protocol defaults to `"tcp"` when the left side has no
`/`, the host port is the substring after the last `:` of the right
side, and a line yielding an empty host port is skipped. -/
theorem c6_port_mapping_parsing :
    parsePortLine (str "80/tcp -> 0.0.0.0:8080")
      = some { host_ip := str "0.0.0.0", host_port := str "8080",
               container_port := str "80", protocol := str "tcp" }
    ∧ (∀ line : Str, ¬ (str "->" <:+: line) → parsePortLine line = none)
    ∧ (∀ line lhs rhs : Str, splitSub (str "->") line = [lhs, rhs] →
        (∀ pm, parsePortLine line = some pm →
          pm.container_port = (rtrim lhs).takeWhile (· ≠ '/')
          ∧ pm.host_port = afterLastSep ':' (rtrim rhs)
          ∧ ('/' ∉ rtrim lhs → pm.protocol = str "tcp"))
        ∧ (afterLastSep ':' (rtrim rhs) = [] → parsePortLine line = none))
    ∧ (∀ (line : Str) (pm : PortMapping), parsePortLine line = some pm →
        pm.host_port ≠ []) := by
  refine ⟨by decide, ?_, ?_, fun line pm h => parsePortLine_host_port_ne_nil h⟩
  · intro line h
    simp [parsePortLine, splitSub_of_not_infix h]
  · intro line lhs rhs hsplit
    constructor
    · intro pm h
      simp only [parsePortLine, hsplit, splitCh_head?, splitCh_getLast?,
        Option.getD_some] at h
      split at h
      case isTrue =>
        obtain rfl := Option.some.inj h
        refine ⟨rfl, rfl, fun hns => ?_⟩
        simp [splitCh_of_not_mem hns]
      case isFalse => exact absurd h (by simp)
    · intro hempty
      simp only [parsePortLine, hsplit, splitCh_getLast?, Option.getD_some]
      simp [hempty]

/-- Witness for C6: a separator-free line and an empty-host-port line
are both skipped. -/
theorem c6_port_mapping_parsing_witness :
    parsePortLine (str "no separator here") = none
    ∧ parsePortLine (str "80/tcp -> 0.0.0.0:") = none :=
  ⟨c6_port_mapping_parsing.2.1 (str "no separator here") (by decide),
   (c6_port_mapping_parsing.2.2.1 (str "80/tcp -> 0.0.0.0:")
      (str "80/tcp ") (str " 0.0.0.0:") (by decide)).2 (by decide)⟩

/-! ## Claim C3 -/

/-- No trimmed line of `ls` begins with `proxy_pass`, so the scan
returns the sentinel. -/
theorem extract_proxy_target_lines_eq_static {ls : List Str}
    (h : ∀ line ∈ ls, ¬ (str "proxy_pass" <+: rtrim line)) :
    extract_proxy_target_lines ls = str "static" := by
  induction ls with
  | nil => rfl
  | cons line rest ih =>
    have h1 : startsW (str "proxy_pass") (rtrim line) = false := by
      rw [Bool.eq_false_iff]
      intro hh
      exact h line (by simp) (startsW_iff.mp hh)
    simp only [extract_proxy_target_lines, h1, Bool.false_eq_true, if_false]
    exact ih (fun l hl => h l (List.mem_cons_of_mem _ hl))

/-- An entry of `upsert m k v` is an old entry or the inserted one. -/
theorem mem_upsert {m : List (Str × Str)} {k v : Str} {kv : Str × Str}
    (h : kv ∈ upsert m k v) : kv ∈ m ∨ kv = (k, v) := by
  unfold upsert at h
  split at h
  · rcases List.mem_map.mp h with ⟨p, hp, hpe⟩
    by_cases hk : p.1 = k
    · rw [if_pos hk] at hpe
      exact Or.inr hpe.symm
    · rw [if_neg hk] at hpe
      exact Or.inl (hpe ▸ hp)
  · rcases List.mem_append.mp h with hm | hm
    · exact Or.inl hm
    · exact Or.inr (List.mem_singleton.mp hm)

/-- Every entry of the `vhost_to_backend` fold is an initial entry or
keyed `vhost:<name>` for a listed vhost whose `proxy_pass` extraction
returned exactly the recorded backend. -/
theorem vhostBackends_fold_mem {env : Env} :
    ∀ (vs : List NginxVhost) (m : List (Str × Str)) (kv : Str × Str),
      kv ∈ vs.foldl
        (fun m v =>
          match extract_proxy_target env v.name with
          | .ok backend => upsert m (str "vhost:" ++ v.name) backend
          | .error _ => m) m →
      kv ∈ m ∨ ∃ v ∈ vs, kv.1 = str "vhost:" ++ v.name ∧
        extract_proxy_target env v.name = .ok kv.2 := by
  intro vs
  induction vs with
  | nil => intro m kv h; exact Or.inl (by simpa using h)
  | cons v rest ih =>
    intro m kv h
    simp only [List.foldl_cons] at h
    rcases ih _ kv h with hm | ⟨w, hw, h1, h2⟩
    · cases hept : extract_proxy_target env v.name with
      | ok b =>
        rw [hept] at hm
        rcases mem_upsert hm with hmm | rfl
        · exact Or.inl hmm
        · exact Or.inr ⟨v, List.mem_cons_self v rest, rfl, hept⟩
      | error e =>
        rw [hept] at hm
        exact Or.inl hm
    · exact Or.inr ⟨w, List.mem_cons_of_mem _ hw, h1, h2⟩

/-- Every entry of `vhostBackends` comes from a listed vhost. -/
theorem vhostBackends_mem {env : Env} {vs : List NginxVhost} {kv : Str × Str}
    (h : kv ∈ vhostBackends env vs) :
    ∃ v ∈ vs, kv.1 = str "vhost:" ++ v.name ∧
      extract_proxy_target env v.name = .ok kv.2 := by
  rcases vhostBackends_fold_mem vs [] kv h with h0 | h1
  · simp at h0
  · exact h1

/-- Claim C3 as stated is false on the code: for the static vhost
`site` (whose config has no `proxy_pass` line, so backend extraction
returns `"static"`) and a container named `a`, a `proxies_to` edge IS
emitted, because the correlation loop never excludes the `"static"`
sentinel and `"static"` contains the substring `"a"`. -/
theorem c3_counterexample_static_edge_emitted :
    extract_proxy_target envStatic (str "site") = .ok (str "static")
    ∧ (edgesOf (get_infrastructure_graph envStatic)).any
        (fun e => decide (e.edge_type = str "proxies_to")
          && decide (e.source = str "vhost:site")) = true := by
  constructor
  · rfl
  · decide

/-- Claim C3 (amended): a vhost config with no `proxy_pass` line yields
the backend `"static"`, and no `proxies_to` edge is emitted from that
vhost PROVIDED no container's name or 12-character short id occurs as a
substring of the sentinel `"static"` (the code applies the containment
rule to the sentinel too). -/
theorem c3_amended_static_no_proxy_edges (env : Env) (name content : Str)
    (g : InfrastructureGraph) (cs : List DockerContainer)
    (hconf : env.vhostConfig name = .ok content)
    (hnopp : ∀ line ∈ rlines content, ¬ (str "proxy_pass" <+: rtrim line))
    (hg : get_infrastructure_graph env = .ok g)
    (hcs : get_containers_for_graph env = .ok cs)
    (hnm : ∀ c ∈ cs, ¬ (c.name <:+: str "static") ∧ ¬ (shortId c <:+: str "static")) :
    extract_proxy_target env name = .ok (str "static")
    ∧ g.edges.filter (fun e => decide (e.edge_type = str "proxies_to")
        && decide (e.source = str "vhost:" ++ name)) = [] := by
  have hstatic : extract_proxy_target env name = .ok (str "static") := by
    unfold extract_proxy_target
    rw [hconf]
    exact congrArg Except.ok (extract_proxy_target_lines_eq_static hnopp)
  refine ⟨hstatic, ?_⟩
  obtain ⟨-, cs', ns, hcs', hns, rfl⟩ := graphWith_ok_inv hg
  obtain rfl : cs' = cs := by rw [hcs'] at hcs; exact Except.ok.inj hcs
  rw [List.filter_eq_nil_iff]
  intro e he
  simp only [Bool.and_eq_true, decide_eq_true_eq, not_and]
  intro htype hsrc
  rw [graphEdges] at he
  rcases List.mem_append.mp he with he | h5
  · rcases List.mem_append.mp he with he | h4
    · rcases List.mem_append.mp he with he | h3
      · rcases List.mem_append.mp he with h1 | h2
        · rcases List.mem_cons.mp h1 with rfl | h1
          · exact absurd htype (by decide)
          · rcases List.mem_singleton.mp h1 with rfl
            exact absurd htype (by decide)
        · rcases List.mem_map.mp h2 with ⟨v, -, rfl⟩
          have htype' : str "serves" = str "proxies_to" := htype
          exact absurd htype' (by decide)
      · rcases List.mem_flatMap.mp h3 with ⟨c, hc, hec⟩
        rcases List.mem_filterMap.mp hec with ⟨kv, hkv, hif⟩
        split at hif
        case isTrue hcond =>
          obtain rfl := Option.some.inj hif
          obtain ⟨v, -, hkey, hval⟩ := vhostBackends_mem hkv
          rw [hkey] at hsrc
          have hvn : v.name = name := List.append_cancel_left hsrc
          rw [hvn, hstatic] at hval
          rw [← Except.ok.inj hval] at hcond
          simp only [Bool.or_eq_true] at hcond
          rcases hcond with hh | hh
          · exact (hnm c hc).1 (rcontains_iff.mp hh)
          · exact (hnm c hc).2 (rcontains_iff.mp hh)
        case isFalse => exact absurd hif (by simp)
    · rcases List.mem_flatMap.mp h4 with ⟨n, -, hn⟩
      rcases List.mem_cons.mp hn with rfl | hn2
      · have htype' : str "nat" = str "proxies_to" := htype
        exact absurd htype' (by decide)
      · rcases List.mem_filterMap.mp hn2 with ⟨c, -, hif⟩
        split at hif
        · obtain rfl := Option.some.inj hif
          have htype' : str "connected_to" = str "proxies_to" := htype
          exact absurd htype' (by decide)
        · exact absurd hif (by simp)
  · rcases List.mem_flatMap.mp h5 with ⟨c, -, hcp⟩
    rcases List.mem_flatMap.mp hcp with ⟨p, -, hp⟩
    rcases List.mem_cons.mp hp with rfl | hp2
    · have htype' : str "direct_access" = str "proxies_to" := htype
      exact absurd htype' (by decide)
    · rcases List.mem_singleton.mp hp2 with rfl
      have htype' : str "port_mapping" = str "proxies_to" := htype
      exact absurd htype' (by decide)

/-- Witness for the amended C3: the static vhost of `envStatic2` (one
container `zz`) produces no `proxies_to` edge. -/
theorem c3_amended_static_no_proxy_edges_witness :
    extract_proxy_target envStatic2 (str "site") = .ok (str "static")
    ∧ gStatic2.edges.filter (fun e => decide (e.edge_type = str "proxies_to")
        && decide (e.source = str "vhost:" ++ str "site")) = [] :=
  c3_amended_static_no_proxy_edges envStatic2 (str "site") _ gStatic2 _
    rfl (by decide) rfl rfl (by decide)

/-! ## Claim C10 -/

/-- Claim C10: for a container record whose full id is empty, the
short-id prefix is empty, so correlation rule 1 emits a `proxies_to`
edge to it from every recorded backend entry (empty-string containment
always holds), and correlation rule 2 emits a `connected_to` edge to
every network whose member list is non-empty (every member starts with
the empty prefix). -/
theorem c10_empty_id_overmatching (env : Env) (g : InfrastructureGraph)
    (cs : List DockerContainer) (c : DockerContainer)
    (hg : get_infrastructure_graph env = .ok g)
    (hcs : get_containers_for_graph env = .ok cs)
    (hc : c ∈ cs) (hid : c.id = []) :
    shortId c = []
    ∧ (∀ kv ∈ vhostBackends env (get_vhosts_for_graph env),
        g.edges.any (fun e => decide (e.source = kv.1)
          && decide (e.target = str "container:" ++ c.name)
          && decide (e.edge_type = str "proxies_to")) = true)
    ∧ (∀ (ns : List DockerNetwork) (n : DockerNetwork),
        get_docker_networks_for_graph env = .ok ns → n ∈ ns → n.containers ≠ [] →
        g.edges.any (fun e => decide (e.source = str "container:" ++ c.name)
          && decide (e.target = str "network:" ++ n.name)
          && decide (e.edge_type = str "connected_to")) = true) := by
  have hshort : shortId c = [] := by rw [shortId, hid]; rfl
  obtain ⟨-, cs', ns', hcs', hns', rfl⟩ := graphWith_ok_inv hg
  obtain rfl : cs' = cs := by rw [hcs'] at hcs; exact Except.ok.inj hcs
  refine ⟨hshort, ?_, ?_⟩
  · intro kv hkv
    rw [List.any_eq_true]
    refine ⟨{ source := kv.1, target := str "container:" ++ c.name,
              edge_type := str "proxies_to", label := some kv.2, metadata := none },
            ?_, by simp⟩
    show _ ∈ graphEdges env _ _ _ _
    rw [graphEdges]
    refine List.mem_append.mpr (Or.inl (List.mem_append.mpr (Or.inl
      (List.mem_append.mpr (Or.inr ?_)))))
    refine List.mem_flatMap.mpr ⟨c, hc, ?_⟩
    refine List.mem_filterMap.mpr ⟨kv, hkv, ?_⟩
    have hcond : (rcontains kv.2 c.name || rcontains kv.2 (shortId c)) = true := by
      rw [hshort]
      exact Bool.or_eq_true _ _ ▸ Or.inr (rcontains_iff.mpr List.nil_infix)
    rw [if_pos hcond]
  · intro ns n hns hn hne
    obtain rfl : ns' = ns := by rw [hns'] at hns; exact Except.ok.inj hns
    rw [List.any_eq_true]
    refine ⟨{ source := str "container:" ++ c.name, target := str "network:" ++ n.name,
              edge_type := str "connected_to", label := none, metadata := none },
            ?_, by simp⟩
    show _ ∈ graphEdges env _ _ _ _
    rw [graphEdges]
    refine List.mem_append.mpr (Or.inl (List.mem_append.mpr (Or.inr ?_)))
    refine List.mem_flatMap.mpr ⟨n, hn, ?_⟩
    refine List.mem_cons_of_mem _ ?_
    refine List.mem_filterMap.mpr ⟨c, hc, ?_⟩
    have hcond : (n.containers.contains c.name
        || n.containers.any (fun m => startsW (shortId c) m)) = true := by
      obtain ⟨m, hm⟩ := List.exists_mem_of_ne_nil n.containers hne
      refine Bool.or_eq_true _ _ ▸ Or.inr ?_
      rw [List.any_eq_true]
      exact ⟨m, hm, by rw [hshort]; exact startsW_iff.mpr List.nil_prefix⟩
    rw [if_pos hcond]

/-- Witness for C10 at `envC10` (container `app` with empty id). -/
theorem c10_empty_id_overmatching_witness :
    gC10.edges.any (fun e => decide (e.source = str "vhost:site")
      && decide (e.target = str "container:" ++ str "app")
      && decide (e.edge_type = str "proxies_to")) = true
    ∧ gC10.edges.any (fun e => decide (e.source = str "container:" ++ str "app")
      && decide (e.target = str "network:" ++ str "appnet")
      && decide (e.edge_type = str "connected_to")) = true := by
  have h := c10_empty_id_overmatching envC10 gC10 _
    { id := [], name := str "app", image := str "nginx:latest", status := str "running",
      state := str "running", memory_usage := 0, memory_limit := 0, ports := [] }
    rfl rfl (by decide) rfl
  exact ⟨h.2.1 (str "vhost:site", str "http://app:3000") (by decide),
        h.2.2 _ { id := str "aaa", name := str "appnet", driver := str "bridge",
                  scope := str "local", subnet := some (str "172.18.0.0/16"),
                  gateway := none, containers := [str "app"] }
          rfl (by decide) (by decide)⟩

/-! ## Claim C8 -/

/-- Pointwise-permuted images give permuted concatenations. -/
theorem flatMap_perm_congr {α β : Type} (l : List α) (f g : α → List β)
    (h : ∀ a ∈ l, List.Perm (f a) (g a)) : List.Perm (l.flatMap f) (l.flatMap g) := by
  induction l with
  | nil => simp
  | cons x rest ih =>
    simp only [List.flatMap_cons]
    exact List.Perm.append (h x (List.mem_cons_self x rest))
      (ih fun a ha => h a (List.mem_cons_of_mem _ ha))

/-- Claim C8: two passes over identical extractor outputs produce equal
node lists, set-equal (permuted) edge lists and identical summaries.
The only nondeterminism between such passes is the `HashMap` iteration
order of `vhost_to_backend`, exposed here as the entry-list parameter:
any two iteration orders (permutations of each other) agree up to edge
permutation. -/
theorem c8_idempotence (env : Env) (o1 o2 : List (Str × Str))
    (hperm : List.Perm o1 o2) :
    nodesOf (get_infrastructure_graphWith env o1)
      = nodesOf (get_infrastructure_graphWith env o2)
    ∧ List.Perm (edgesOf (get_infrastructure_graphWith env o1))
        (edgesOf (get_infrastructure_graphWith env o2))
    ∧ summaryOf (get_infrastructure_graphWith env o1)
        = summaryOf (get_infrastructure_graphWith env o2) := by
  by_cases hc : env.connected = true
  · simp only [get_infrastructure_graphWith, hc, if_true]
    cases hcon : get_containers_for_graph env with
    | error e => exact ⟨rfl, List.Perm.refl _, rfl⟩
    | ok cs =>
      cases hnet : get_docker_networks_for_graph env with
      | error e => exact ⟨rfl, List.Perm.refl _, rfl⟩
      | ok ns =>
        refine ⟨rfl, ?_, rfl⟩
        show List.Perm (graphEdges env o1 (get_vhosts_for_graph env) cs ns)
          (graphEdges env o2 (get_vhosts_for_graph env) cs ns)
        rw [graphEdges, graphEdges]
        exact List.Perm.append
          (List.Perm.append
            (List.Perm.append (List.Perm.refl _)
              (flatMap_perm_congr cs (proxyEdges o1) (proxyEdges o2)
                (fun c _ => List.Perm.filterMap _ hperm)))
            (List.Perm.refl _))
          (List.Perm.refl _)
  · rw [Bool.not_eq_true] at hc
    simp only [get_infrastructure_graphWith, hc, Bool.false_eq_true, if_false]
    exact ⟨trivial, List.Perm.refl _, trivial⟩

/-- Witness for C8: two opposite iteration orders of a two-entry
backend map over the end-to-end environment. -/
theorem c8_idempotence_witness :
    nodesOf (get_infrastructure_graphWith envHappy
        [(str "vhost:site", str "http://app:3000"), (str "vhost:other", str "static")])
      = nodesOf (get_infrastructure_graphWith envHappy
        [(str "vhost:other", str "static"), (str "vhost:site", str "http://app:3000")])
    ∧ List.Perm
        (edgesOf (get_infrastructure_graphWith envHappy
          [(str "vhost:site", str "http://app:3000"), (str "vhost:other", str "static")]))
        (edgesOf (get_infrastructure_graphWith envHappy
          [(str "vhost:other", str "static"), (str "vhost:site", str "http://app:3000")]))
    ∧ summaryOf (get_infrastructure_graphWith envHappy
        [(str "vhost:site", str "http://app:3000"), (str "vhost:other", str "static")])
      = summaryOf (get_infrastructure_graphWith envHappy
        [(str "vhost:other", str "static"), (str "vhost:site", str "http://app:3000")]) :=
  c8_idempotence envHappy _ _ (by decide)

/-! ## Claim C4 -/

/-- Splitting at an explicit separator boundary. -/
theorem splitChAux_append_sep (c : Char) :
    ∀ (a rest acc : Str), c ∉ a →
      splitChAux c (a ++ c :: rest) acc = (acc.reverse ++ a) :: splitChAux c rest [] := by
  intro a
  induction a with
  | nil => intro rest acc _; simp [splitChAux]
  | cons x a' ih =>
    intro rest acc h
    have hx : ¬ x = c := fun hh => h (by simp [hh])
    simp only [List.cons_append, splitChAux, hx, if_false]
    show splitChAux c (a' ++ c :: rest) (x :: acc) = _
    rw [ih rest (x :: acc) (fun hh => h (List.mem_cons_of_mem _ hh))]
    simp

/-- `splitCh` at an explicit separator boundary. -/
theorem splitCh_append_sep (c : Char) (a rest : Str) (h : c ∉ a) :
    splitCh c (a ++ c :: rest) = a :: splitCh c rest := by
  rw [splitCh, splitChAux_append_sep c a rest [] h]
  rfl

/-- A non-empty newline-free string is a single line. -/
theorem rlines_single {s : Str} (h : '\n' ∉ s) (hne : s ≠ []) : rlines s = [s] := by
  cases s with
  | nil => exact absurd rfl hne
  | cons x s' =>
    rw [rlines]
    rw [splitCh_of_not_mem h]
    rfl

/-- Claim C4: with exactly one vhost (backend `http://app:3000`) and
exactly one container named `app` whose full id `cid` is at least 12
characters long and whose short id does not occur in the backend
string, the graph has exactly one `proxies_to` edge, from the vhost's
node to the container's node; and with the backend
`http://10.0.0.99:3000`, which contains neither the container name nor
(by hypothesis) the short id, zero `proxies_to` edges are produced. -/
theorem c4_proxy_correlation (cid : Str)
    (h12 : 12 ≤ cid.length) (hpipe : '|' ∉ cid) (hnl : '\n' ∉ cid)
    (hni : ¬ (cid.take 12 <:+: str "http://app:3000"))
    (hni2 : ¬ (cid.take 12 <:+: str "http://10.0.0.99:3000")) :
    (edgesOf (get_infrastructure_graph (envC4 cid))).filter
        (fun e => decide (e.edge_type = str "proxies_to"))
      = [{ source := str "vhost:site", target := str "container:" ++ str "app",
           edge_type := str "proxies_to", label := some (str "http://app:3000"),
           metadata := none }]
    ∧ (edgesOf (get_infrastructure_graph (envC4b cid))).filter
        (fun e => decide (e.edge_type = str "proxies_to"))
      = [] := by
  have hline : ('\n' : Char) ∉ cid ++ str "|app|nginx:latest|running" := by
    intro hmem
    rcases List.mem_append.mp hmem with hm | hm
    · exact hnl hm
    · exact absurd hm (by decide)
  have hnee : cid ++ str "|app|nginx:latest|running" ≠ [] := by
    intro hh
    rcases List.append_eq_nil.mp hh with ⟨-, h2⟩
    exact absurd h2 (by decide)
  have hsplit : splitCh '|' (cid ++ str "|app|nginx:latest|running")
      = cid :: [str "app", str "nginx:latest", str "running"] := by
    have hshape : str "|app|nginx:latest|running" = '|' :: str "app|nginx:latest|running" := rfl
    rw [hshape, splitCh_append_sep '|' cid _ hpipe]
    have htail : splitCh '|' (str "app|nginx:latest|running")
        = [str "app", str "nginx:latest", str "running"] := rfl
    rw [htail]
  have hparse : parseContainerLine (cid ++ str "|app|nginx:latest|running")
      = some { id := cid, name := str "app", image := str "nginx:latest",
               status := str "running", state := str "running",
               memory_usage := 0, memory_limit := 0, ports := [] } := by
    simp [parseContainerLine, hsplit]
  have hcs : ∀ e0 : Env, e0.dockerPs = .ok (cid ++ str "|app|nginx:latest|running") →
      get_containers_for_graph e0
        = .ok [{ id := cid, name := str "app", image := str "nginx:latest",
                 status := str "running", state := str "running",
                 memory_usage := 0, memory_limit := 0, ports := [] }] := by
    intro e0 hps
    unfold get_containers_for_graph
    rw [hps]
    show Except.ok ((rlines (cid ++ str "|app|nginx:latest|running")).filterMap
      parseContainerLine) = _
    rw [rlines_single hline hnee]
    simp [hparse]
  constructor
  · have hcs4 := hcs (envC4 cid) rfl
    have hedges := edgesOf_graphWith (envC4 cid)
      (vhostBackends (envC4 cid) (get_vhosts_for_graph (envC4 cid))) rfl hcs4 rfl
    have hgi : get_infrastructure_graph (envC4 cid)
        = get_infrastructure_graphWith (envC4 cid)
            (vhostBackends (envC4 cid) (get_vhosts_for_graph (envC4 cid))) := rfl
    rw [hgi, hedges, graphEdges]
    have horder : vhostBackends (envC4 cid) (get_vhosts_for_graph (envC4 cid))
        = [(str "vhost:site", str "http://app:3000")] := rfl
    rw [horder]
    have hfirst : rcontains (str "http://app:3000") (str "app") = true := by decide
    simp only [List.flatMap_cons, List.flatMap_nil, List.append_nil, proxyEdges,
      List.filterMap_cons, List.filterMap_nil, hfirst, Bool.true_or, if_true,
      eq_self_iff_true, List.filter_append]
    rfl
  · have hcs4 := hcs (envC4b cid) rfl
    have hedges := edgesOf_graphWith (envC4b cid)
      (vhostBackends (envC4b cid) (get_vhosts_for_graph (envC4b cid))) rfl hcs4 rfl
    have hgi : get_infrastructure_graph (envC4b cid)
        = get_infrastructure_graphWith (envC4b cid)
            (vhostBackends (envC4b cid) (get_vhosts_for_graph (envC4b cid))) := rfl
    rw [hgi, hedges, graphEdges]
    have horder : vhostBackends (envC4b cid) (get_vhosts_for_graph (envC4b cid))
        = [(str "vhost:site", str "http://10.0.0.99:3000")] := rfl
    rw [horder]
    have hfirst : rcontains (str "http://10.0.0.99:3000") (str "app") = false := by decide
    have hsecond : rcontains (str "http://10.0.0.99:3000") (cid.take 12) = false := by
      rw [rcontains, decide_eq_false_iff_not]
      exact hni2
    simp only [List.flatMap_cons, List.flatMap_nil, List.append_nil, proxyEdges,
      List.filterMap_cons, List.filterMap_nil, shortId, hfirst, hsecond, Bool.or_self,
      Bool.false_eq_true, if_false, eq_self_iff_true, List.filter_append]
    rfl

/-- Witness for C4 with a 40-character hexadecimal id. -/
theorem c4_proxy_correlation_witness :
    (edgesOf (get_infrastructure_graph
        (envC4 (str "0123456789abcdef0123456789abcdef01234567")))).filter
        (fun e => decide (e.edge_type = str "proxies_to"))
      = [{ source := str "vhost:site", target := str "container:" ++ str "app",
           edge_type := str "proxies_to", label := some (str "http://app:3000"),
           metadata := none }]
    ∧ (edgesOf (get_infrastructure_graph
        (envC4b (str "0123456789abcdef0123456789abcdef01234567")))).filter
        (fun e => decide (e.edge_type = str "proxies_to"))
      = [] :=
  c4_proxy_correlation (str "0123456789abcdef0123456789abcdef01234567")
    (by decide) (by decide) (by decide) (by decide) (by decide)

/-! ## Claim C2 -/

/-- Claim C2: in every successfully returned graph, every edge's source
and target equal the id of some node in the returned node list. -/
theorem c2_no_dangling_edges (env : Env) (g : InfrastructureGraph)
    (hg : get_infrastructure_graph env = .ok g) :
    ∀ e ∈ g.edges, e.source ∈ g.nodes.map (fun n => n.id)
      ∧ e.target ∈ g.nodes.map (fun n => n.id) := by
  obtain ⟨-, cs, ns, hcs, hns, rfl⟩ := graphWith_ok_inv hg
  have hInternet : str "internet"
      ∈ (graphNodes env (get_vhosts_for_graph env) cs ns).map (fun n => n.id) :=
    List.mem_map.mpr ⟨internetNode, by rw [graphNodes]; simp, rfl⟩
  have hNginx : str "nginx"
      ∈ (graphNodes env (get_vhosts_for_graph env) cs ns).map (fun n => n.id) :=
    List.mem_map.mpr ⟨nginxNode env, by rw [graphNodes]; simp, rfl⟩
  have hHost : str "host_network"
      ∈ (graphNodes env (get_vhosts_for_graph env) cs ns).map (fun n => n.id) :=
    List.mem_map.mpr ⟨hostNetworkNode env, by rw [graphNodes]; simp, rfl⟩
  have hVhost : ∀ v ∈ get_vhosts_for_graph env, str "vhost:" ++ v.name
      ∈ (graphNodes env (get_vhosts_for_graph env) cs ns).map (fun n => n.id) := by
    intro v hv
    refine List.mem_map.mpr ⟨vhostNode v, ?_, rfl⟩
    rw [graphNodes]
    simp only [List.mem_append]
    exact Or.inl (Or.inl (Or.inl (Or.inr (List.mem_map_of_mem _ hv))))
  have hCont : ∀ c ∈ cs, str "container:" ++ c.name
      ∈ (graphNodes env (get_vhosts_for_graph env) cs ns).map (fun n => n.id) := by
    intro c hc
    refine List.mem_map.mpr ⟨containerNode c, ?_, rfl⟩
    rw [graphNodes]
    simp only [List.mem_append]
    exact Or.inl (Or.inl (Or.inr (List.mem_map_of_mem _ hc)))
  have hNet : ∀ n ∈ ns, str "network:" ++ n.name
      ∈ (graphNodes env (get_vhosts_for_graph env) cs ns).map (fun n => n.id) := by
    intro n hn
    refine List.mem_map.mpr ⟨networkNode n, ?_, rfl⟩
    rw [graphNodes]
    simp only [List.mem_append]
    exact Or.inl (Or.inr (List.mem_map_of_mem _ hn))
  have hPort : ∀ c ∈ cs, ∀ p ∈ get_container_ports env c.name,
      str "hostport:" ++ p.host_port
        ∈ (graphNodes env (get_vhosts_for_graph env) cs ns).map (fun n => n.id) := by
    intro c hc p hp
    refine List.mem_map.mpr ⟨hostPortNode p, ?_, rfl⟩
    rw [graphNodes]
    simp only [List.mem_append]
    exact Or.inr (List.mem_flatMap.mpr ⟨c, hc, List.mem_map_of_mem _ hp⟩)
  intro e he
  rw [graphEdges] at he
  rcases List.mem_append.mp he with he | h5
  · rcases List.mem_append.mp he with he | h4
    · rcases List.mem_append.mp he with he | h3
      · rcases List.mem_append.mp he with h1 | h2
        · rcases List.mem_cons.mp h1 with rfl | h1
          · exact ⟨hInternet, hNginx⟩
          · rcases List.mem_singleton.mp h1 with rfl
            exact ⟨hHost, hInternet⟩
        · rcases List.mem_map.mp h2 with ⟨v, hv, rfl⟩
          exact ⟨hNginx, hVhost v hv⟩
      · rcases List.mem_flatMap.mp h3 with ⟨c, hc, hec⟩
        rcases List.mem_filterMap.mp hec with ⟨kv, hkv, hif⟩
        split at hif
        case isTrue =>
          obtain rfl := Option.some.inj hif
          obtain ⟨v, hv, hkey, -⟩ := vhostBackends_mem hkv
          have hsrc := hVhost v hv
          rw [← hkey] at hsrc
          exact ⟨hsrc, hCont c hc⟩
        case isFalse => exact absurd hif (by simp)
    · rcases List.mem_flatMap.mp h4 with ⟨n, hn, hne⟩
      rcases List.mem_cons.mp hne with rfl | hn2
      · exact ⟨hNet n hn, hHost⟩
      · rcases List.mem_filterMap.mp hn2 with ⟨c, hc, hif⟩
        split at hif
        · obtain rfl := Option.some.inj hif
          exact ⟨hCont c hc, hNet n hn⟩
        · exact absurd hif (by simp)
  · rcases List.mem_flatMap.mp h5 with ⟨c, hc, hcp⟩
    rcases List.mem_flatMap.mp hcp with ⟨p, hp, hpe⟩
    rcases List.mem_cons.mp hpe with rfl | hp2
    · exact ⟨hInternet, hPort c hc p hp⟩
    · rcases List.mem_singleton.mp hp2 with rfl
      exact ⟨hPort c hc p hp, hCont c hc⟩

/-- Witness for C2: the Internet → Nginx edge of the end-to-end scenario
references node ids present in the node list. -/
theorem c2_no_dangling_edges_witness :
    routesToEdge.source ∈ gHappy.nodes.map (fun n => n.id)
    ∧ routesToEdge.target ∈ gHappy.nodes.map (fun n => n.id) :=
  c2_no_dangling_edges envHappy gHappy rfl routesToEdge (List.mem_cons_self _ _)

/-! ## Claim C1 -/

/-- Claim C1 as stated is false on the code: two container records
sharing the name `app` yield two nodes with the id `container:app`, so
the node ids of the resulting graph are not pairwise distinct. -/
theorem c1_counterexample_duplicate_ids :
    ¬ ((nodesOf (get_infrastructure_graph envDupName)).map (fun n => n.id)).Nodup := by
  decide

/-- Lists whose elements carry two different tags are disjoint. -/
theorem tag_disjoint {l1 l2 : List Str} {t1 t2 : Nat} (hne : t1 ≠ t2)
    (h1 : ∀ x ∈ l1, idTag x = t1) (h2 : ∀ x ∈ l2, idTag x = t2) :
    List.Disjoint l1 l2 :=
  fun a ha hb => hne (((h1 a ha).symm.trans (h2 a hb)))

/-- Claim C1 (amended): node ids are pairwise distinct PROVIDED the
parsed vhost names, container names and network names are each pairwise
distinct and the host ports across all port mappings are pairwise
distinct; the fixed `<type-prefix>:` scheme rules out cross-layer
collisions, but within a layer duplicate natural keys duplicate ids
(no deduplication pass exists). -/
theorem c1_amended_unique_node_ids (env : Env) (g : InfrastructureGraph)
    (cs : List DockerContainer) (ns : List DockerNetwork)
    (hg : get_infrastructure_graph env = .ok g)
    (hcs : get_containers_for_graph env = .ok cs)
    (hns : get_docker_networks_for_graph env = .ok ns)
    (hv : ((get_vhosts_for_graph env).map (fun v => v.name)).Nodup)
    (hcn : (cs.map (fun c => c.name)).Nodup)
    (hnn : (ns.map (fun n => n.name)).Nodup)
    (hpp : (cs.flatMap (fun c => (get_container_ports env c.name).map
        (fun p => p.host_port))).Nodup) :
    (g.nodes.map (fun n => n.id)).Nodup := by
  obtain ⟨-, cs', ns', hcs', hns', rfl⟩ := graphWith_ok_inv hg
  have hEqc : cs' = cs := by rw [hcs'] at hcs; exact Except.ok.inj hcs
  have hEqn : ns' = ns := by rw [hns'] at hns; exact Except.ok.inj hns
  rw [hEqc, hEqn]
  have injPre : ∀ pre : Str, Function.Injective (fun x : Str => pre ++ x) :=
    fun pre a b hab => List.append_cancel_left hab
  have h1 : List.Nodup [str "internet", str "nginx", str "host_network"] := by decide
  have h2 : List.Nodup (List.map (fun v => str "vhost:" ++ v.name)
      (get_vhosts_for_graph env)) := by
    simpa [List.map_map, Function.comp] using
      List.Nodup.map (injPre (str "vhost:")) hv
  have h3 : List.Nodup (List.map (fun c => str "container:" ++ c.name) cs) := by
    simpa [List.map_map, Function.comp] using
      List.Nodup.map (injPre (str "container:")) hcn
  have h4 : List.Nodup (List.map (fun n => str "network:" ++ n.name) ns) := by
    simpa [List.map_map, Function.comp] using
      List.Nodup.map (injPre (str "network:")) hnn
  have h5 : List.Nodup (cs.flatMap (fun c =>
      List.map (fun p => str "hostport:" ++ p.host_port)
        (get_container_ports env c.name))) := by
    simpa [List.map_flatMap, List.map_map, Function.comp] using
      List.Nodup.map (injPre (str "hostport:")) hpp
  have tagV : ∀ x ∈ List.map (fun v => str "vhost:" ++ v.name)
      (get_vhosts_for_graph env), idTag x = 1 := by
    intro x hx
    obtain ⟨v, -, rfl⟩ := List.mem_map.mp hx
    rfl
  have tagC : ∀ x ∈ List.map (fun c => str "container:" ++ c.name) cs, idTag x = 2 := by
    intro x hx
    obtain ⟨c, -, rfl⟩ := List.mem_map.mp hx
    rfl
  have tagN : ∀ x ∈ List.map (fun n => str "network:" ++ n.name) ns, idTag x = 3 := by
    intro x hx
    obtain ⟨n, -, rfl⟩ := List.mem_map.mp hx
    rfl
  have tagH : ∀ x ∈ cs.flatMap (fun c =>
      List.map (fun p => str "hostport:" ++ p.host_port)
        (get_container_ports env c.name)), idTag x = 4 := by
    intro x hx
    obtain ⟨c, -, hx2⟩ := List.mem_flatMap.mp hx
    obtain ⟨p, -, rfl⟩ := List.mem_map.mp hx2
    rfl
  have dfix : ∀ (l2 : List Str) (t : Nat), t ≠ 5 → t ≠ 6 → t ≠ 7 →
      (∀ x ∈ l2, idTag x = t) →
      List.Disjoint [str "internet", str "nginx", str "host_network"] l2 := by
    intro l2 t hn5 hn6 hn7 h2x a ha hb
    have ht := h2x a hb
    rcases List.mem_cons.mp ha with rfl | ha
    · rw [show idTag (str "internet") = 5 from rfl] at ht
      exact hn5 ht.symm
    rcases List.mem_cons.mp ha with rfl | ha
    · rw [show idTag (str "nginx") = 6 from rfl] at ht
      exact hn6 ht.symm
    rcases List.mem_singleton.mp ha with rfl
    rw [show idTag (str "host_network") = 7 from rfl] at ht
    exact hn7 ht.symm
  rw [graphNodes]
  simp only [List.map_append, List.map_flatMap, List.map_map, List.map_cons,
    List.map_nil]
  show List.Nodup ([str "internet", str "nginx", str "host_network"]
    ++ List.map (fun v => str "vhost:" ++ v.name) (get_vhosts_for_graph env)
    ++ List.map (fun c => str "container:" ++ c.name) cs
    ++ List.map (fun n => str "network:" ++ n.name) ns
    ++ cs.flatMap (fun c => List.map (fun p => str "hostport:" ++ p.host_port)
        (get_container_ports env c.name)))
  simp only [List.append_assoc]
  refine List.Nodup.append h1 (List.Nodup.append h2 (List.Nodup.append h3
    (List.Nodup.append h4 h5 ?_) ?_) ?_) ?_
  · exact tag_disjoint (by decide) tagN tagH
  · exact List.disjoint_append_right.mpr
      ⟨tag_disjoint (by decide) tagC tagN, tag_disjoint (by decide) tagC tagH⟩
  · exact List.disjoint_append_right.mpr
      ⟨tag_disjoint (by decide) tagV tagC, List.disjoint_append_right.mpr
        ⟨tag_disjoint (by decide) tagV tagN, tag_disjoint (by decide) tagV tagH⟩⟩
  · refine List.disjoint_append_right.mpr ⟨dfix _ 1 (by decide) (by decide) (by decide) tagV,
      List.disjoint_append_right.mpr ⟨dfix _ 2 (by decide) (by decide) (by decide) tagC,
        List.disjoint_append_right.mpr ⟨dfix _ 3 (by decide) (by decide) (by decide) tagN,
          dfix _ 4 (by decide) (by decide) (by decide) tagH⟩⟩⟩

/-- Witness for the amended C1 at the end-to-end scenario (distinct
names and ports throughout). -/
theorem c1_amended_unique_node_ids_witness :
    (gHappy.nodes.map (fun n => n.id)).Nodup :=
  c1_amended_unique_node_ids envHappy gHappy _ _ rfl rfl rfl
    (by decide) (by decide) (by decide) (by decide)

end DPanel